import Mathlib

/-!
# Verification of the habit-bot client (calendar builders and API wrapper)

Shallow embedding of the two logic-bearing pieces of the repository:

* `buildCalendarGrid` and `buildMiniBars` from `src/frontend/src/App.jsx`
  (month-grid construction with Monday-first alignment and a trailing
  14-day status strip), and
* `request` / `getTelegramId` from the API module (`src/unnamed/part_000`):
  URL and header construction, the single retry on timeout (AbortError),
  non-2xx error conversion and 204 handling.

JavaScript `Date` arithmetic is embedded by standard proleptic Gregorian
calendar functions (`daysInMonth`, `dayOfWeek` via Sakamoto's congruence),
valid for month numbers 1..12, which is the domain every theorem below
restricts to; the `new Date(y, …)` quirk that years 0..99 mean 1900+y is
kept in `jsYearAdjust`.
-/

namespace HabitBot

/-! ## Calendar arithmetic (embedding of JS `Date` usage) -/

/-- Gregorian leap-year test, as `new Date(y, 2, 0).getDate() = 29` would report. -/
def isLeap (y : Nat) : Bool :=
  (y % 4 == 0 && y % 100 != 0) || y % 400 == 0

/-- Embeds `new Date(y, m, 0).getDate()`: number of days of month `m` (1..12)
of year `y` in the Gregorian calendar. -/
def daysInMonth (y m : Nat) : Nat :=
  if m = 2 then (if isLeap y then 29 else 28)
  else if m = 4 ∨ m = 6 ∨ m = 9 ∨ m = 11 then 30
  else 31

/-- Month offsets of Sakamoto's day-of-week congruence. -/
def sakamotoTable : List Nat := [0, 3, 2, 5, 0, 3, 5, 1, 4, 6, 2, 4]

/-- Embeds `new Date(y, m-1, d).getDay()`: weekday of the Gregorian date
`y-m-d` with 0 = Sunday, …, 6 = Saturday (valid for `1 ≤ m ≤ 12`, `y ≥ 1`). -/
def dayOfWeek (y m d : Nat) : Nat :=
  let y := if m < 3 then y - 1 else y
  (y + y / 4 - y / 100 + y / 400 + sakamotoTable.getD (m - 1) 0 + d) % 7

/-- `new Date(y, …)` interprets a year argument in 0..99 as 1900+y. -/
def jsYearAdjust (y : Nat) : Nat :=
  if y ≤ 99 then y + 1900 else y

/-! ## Parsing of the `YYYY-MM` month selector -/

/-- Embeds `parseInt(v, 10)` on the strings produced by splitting a month
selector: the longest leading run of decimal digits, `none` when there is
none (JS `NaN`). -/
def parseIntJS (s : String) : Option Nat :=
  let ds := s.toList.takeWhile Char.isDigit
  if ds.isEmpty then none
  else some (ds.foldl (fun a c => a * 10 + (c.toNat - 48)) 0)

/-- Splitting a character list at a separator character, as JS
`String.prototype.split` with a one-character separator does (adjacent
separators and boundary separators yield empty fields). -/
def splitOnChar (sep : Char) : List Char → List (List Char)
  | [] => [[]]
  | c :: cs =>
    let rest := splitOnChar sep cs
    if c == sep then [] :: rest
    else
      match rest with
      | [] => [[c]]
      | h :: t => (c :: h) :: t

/-- Embeds `monthStr.split("-").map((v) => parseInt(v, 10))` followed by the
destructuring `const [y, m] = …`; `none` is the JS `NaN` path, on which the
builders' loops run zero iterations. -/
def parseMonth (s : String) : Option (Nat × Nat) :=
  match (splitOnChar '-' s.toList).map (fun cs => parseIntJS (String.mk cs)) with
  | some y :: some m :: _ => some (y, m)
  | _ => none

/-! ## Calendar data model -/

/-- `CalendarResult`: the `{ marked, skipped }` payload of the calendar
endpoint; each field may be absent (`data.marked || []` in the source). -/
structure CalendarResult where
  marked : Option (List String)
  skipped : Option (List String)
deriving DecidableEq, Repr

/-- Embeds `String(d).padStart(2, "0")`. -/
def padStart2 (s : String) : String :=
  if s.length < 2 then String.mk (List.replicate (2 - s.length) '0') ++ s else s

/-- Embeds the template `` `${monthStr}-${String(d).padStart(2, "0")}` ``. -/
def dayStr (monthStr : String) (d : Nat) : String :=
  monthStr ++ "-" ++ padStart2 (toString d)

/-- Embeds the status assignment of both builders:
`let status = "none"; if (marked.has(dayStr)) status = "done";
if (skipped.has(dayStr)) status = "skip";`. -/
def cellStatus (marked skipped : List String) (ds : String) : String :=
  let status := "none"
  let status := if marked.contains ds then "done" else status
  let status := if skipped.contains ds then "skip" else status
  status

/-- A cell of the calendar grid: `{ type: "empty" }` or
`{ type: "day", day, status }`. -/
inductive Cell where
  | empty : Cell
  | day (day : Nat) (status : String) : Cell
deriving DecidableEq, Repr

/-- An entry of the mini-bar strip: `{ day, status }`. -/
structure Bar where
  day : Nat
  status : String
deriving DecidableEq, Repr

/-- Embeds `buildCalendarGrid(monthStr, data)` from `App.jsx`:
`if (!data) return []`, parse the month, emit `(firstWeekday + 6) % 7`
empty cells, then one day cell per day of the month. -/
def buildCalendarGrid (monthStr : String) (data : Option CalendarResult) : List Cell :=
  match data with
  | none => []
  | some data =>
    match parseMonth monthStr with
    | none => []
    | some (y, m) =>
      let y := jsYearAdjust y
      let mondayIndex := (dayOfWeek y m 1 + 6) % 7
      let marked := data.marked.getD []
      let skipped := data.skipped.getD []
      List.replicate mondayIndex Cell.empty ++
        (List.range (daysInMonth y m)).map (fun i =>
          Cell.day (i + 1) (cellStatus marked skipped (dayStr monthStr (i + 1))))

/-- The day loop of `buildMiniBars` for a month of `dim` days:
`for (let d = Math.max(dim - 13, 1); d <= dim; d += 1)`. -/
def miniBarsFrom (monthStr : String) (dim : Nat) (marked skipped : List String) : List Bar :=
  (List.range' (max (dim - 13) 1) (dim + 1 - max (dim - 13) 1)).map (fun d =>
    ⟨d, cellStatus marked skipped (dayStr monthStr d)⟩)

/-- Embeds `buildMiniBars(monthStr, data)` from `App.jsx`. -/
def buildMiniBars (monthStr : String) (data : Option CalendarResult) : List Bar :=
  match data with
  | none => []
  | some data =>
    match parseMonth monthStr with
    | none => []
    | some (y, m) =>
      let y := jsYearAdjust y
      miniBarsFrom monthStr (daysInMonth y m) (data.marked.getD []) (data.skipped.getD [])

/-! ## API wrapper (embedding of `src/unnamed/part_000`) -/

/-- JS truthiness of a string-or-null value (`null`, `undefined` and `""`
are falsy). -/
def truthyStr (s : Option String) : Bool :=
  match s with
  | some s => !s.isEmpty
  | none => false

/-- Ambient browser state the module reads and writes:
`window?.Telegram?.WebApp?.initDataUnsafe?.user?.id` and
`localStorage["telegram_user_id"]`. -/
structure ClientState where
  webAppUserId : Option Nat
  storedId : Option String
deriving DecidableEq, Repr

/-- Embeds `getTelegramId()`: prefer the embedded host-provided user id
(persisting it), fall back to local storage. The numeric id `0` is falsy
in JS, hence the `tg ≠ 0` guard. Returns the id (or `none` for JS `null`)
and the updated storage state. -/
def getTelegramId (s : ClientState) : Option String × ClientState :=
  match s.webAppUserId with
  | some tg =>
    if tg ≠ 0 then
      (some (toString tg), { s with storedId := some (toString tg) })
    else (s.storedId, s)
  | none => (s.storedId, s)

/-- The options object passed to `request`; all nine exported operations
leave `headers` absent. -/
structure RequestOptions where
  method : Option String := none
  body : Option String := none
  headers : Option (List (String × String)) := none
deriving DecidableEq, Repr

/-- JS-object lookup on a key/value list where a later binding wins
(object spread / assignment order). -/
def hdrLookup (hs : List (String × String)) (k : String) : Option String :=
  (hs.reverse.find? (fun p => p.1 == k)).map Prod.snd

/-- UTF-8 bytes of one code point. -/
def utf8Bytes (c : Char) : List Nat :=
  let n := c.toNat
  if n < 0x80 then [n]
  else if n < 0x800 then [0xC0 + n / 0x40, 0x80 + n % 0x40]
  else if n < 0x10000 then
    [0xE0 + n / 0x1000, 0x80 + n / 0x40 % 0x40, 0x80 + n % 0x40]
  else
    [0xF0 + n / 0x40000, 0x80 + n / 0x1000 % 0x40, 0x80 + n / 0x40 % 0x40,
      0x80 + n % 0x40]

/-- Upper-case hexadecimal digit. -/
def hexDigit (n : Nat) : Char :=
  if n < 10 then Char.ofNat (48 + n) else Char.ofNat (55 + n)

/-- Bytes `encodeURIComponent` leaves unescaped: ASCII alphanumerics and
`- _ . ! ~ * ' ( )`. -/
def uriUnreserved (b : Nat) : Bool :=
  (65 ≤ b && b ≤ 90) || (97 ≤ b && b ≤ 122) || (48 ≤ b && b ≤ 57) ||
    b == 45 || b == 95 || b == 46 || b == 33 || b == 126 || b == 42 ||
    b == 39 || b == 40 || b == 41

/-- Embeds JS `encodeURIComponent`: percent-encodes every UTF-8 byte
outside the unreserved set. -/
def encodeURIComponent (s : String) : String :=
  String.mk <| (s.toList.flatMap utf8Bytes).flatMap fun b =>
    if uriUnreserved b then [Char.ofNat b]
    else ['%', hexDigit (b / 16), hexDigit (b % 16)]

/-- Header construction of `request`: start from
`{"Content-Type": "application/json", ...(options.headers || {})}`, then
`if (tg && !headers["X-Telegram-Id"]) headers["X-Telegram-Id"] = tg`. -/
def buildHeaders (opts : RequestOptions) (tg : Option String) : List (String × String) :=
  let headers := [("Content-Type", "application/json")] ++ opts.headers.getD []
  if truthyStr tg && !(truthyStr (hdrLookup headers "X-Telegram-Id")) then
    headers ++ [("X-Telegram-Id", tg.getD "")]
  else headers

/-- URL construction of `request`: `` `${API_URL}${path}` `` plus, when an
id is known, `telegram_user_id=${encodeURIComponent(tg)}` appended with
`&` or `?` depending on whether the URL already has a query. -/
def buildUrl (apiUrl path : String) (tg : Option String) : String :=
  let url := apiUrl ++ path
  if truthyStr tg then
    let joiner := if url.contains '?' then "&" else "?"
    url ++ joiner ++ "telegram_user_id=" ++ encodeURIComponent (tg.getD "")
  else url

/-- An HTTP response as `request` observes it: status, the text the body
would yield, and the value `res.json()` would produce (abstracted as a
string, since no claim inspects the parsed structure). -/
structure Response where
  status : Nat
  bodyText : String
  jsonBody : String
deriving DecidableEq, Repr

/-- `res.ok`: status in the range 200..299. -/
def Response.okB (r : Response) : Bool :=
  200 ≤ r.status && r.status ≤ 299

/-- Outcome of one `doFetch()` attempt: the promise rejects with an
`AbortError` (the 25-second timeout fired), rejects with some other
error, or resolves to a response. -/
inductive FetchOutcome where
  | abortError : FetchOutcome
  | failure (msg : String) : FetchOutcome
  | response (r : Response) : FetchOutcome
deriving DecidableEq, Repr

/-- The single error channel of the wrapper: a propagated `AbortError`, a
propagated non-abort fetch failure, or the `new Error(text || "Request
failed")` thrown on a non-2xx response. -/
inductive JsError where
  | abortError : JsError
  | failure (msg : String) : JsError
  | requestError (msg : String) : JsError
deriving DecidableEq, Repr

/-- The tail of `request` after a response was obtained:
`if (!res.ok) { const text = await res.text(); throw new Error(text ||
"Request failed"); } if (res.status === 204) return null;
return res.json();`. -/
def processResponse (r : Response) : Except JsError (Option String) :=
  if !r.okB then
    .error (.requestError (if r.bodyText == "" then "Request failed" else r.bodyText))
  else if r.status == 204 then .ok none
  else .ok (some r.jsonBody)

/-- The fetch/retry skeleton of `request`: try `doFetch()`; on an
`AbortError` alone, run `doFetch()` once more (whose own failure, abort
or not, propagates); any other first-attempt error propagates; a
response goes to `processResponse`. The argument numbers the attempts. -/
def fetchWithRetry (doFetch : Nat → FetchOutcome) : Except JsError (Option String) :=
  match doFetch 0 with
  | .response r => processResponse r
  | .failure msg => .error (.failure msg)
  | .abortError =>
    match doFetch 1 with
    | .response r => processResponse r
    | .failure msg => .error (.failure msg)
    | .abortError => .error .abortError

/-- Everything `doFetch` passes to `fetch`: the built URL, the built
headers, and the remaining options (method, body). -/
structure FetchArgs where
  url : String
  headers : List (String × String)
  opts : RequestOptions
deriving DecidableEq, Repr

/-- The arguments both attempts of a given `request` call hand to
`fetch`: computed once from path, options and ambient state. -/
def requestArgs (apiUrl path : String) (opts : RequestOptions) (st : ClientState) : FetchArgs :=
  let tg := (getTelegramId st).1
  ⟨buildUrl apiUrl path tg, buildHeaders opts tg, opts⟩

/-- Embeds `request(path, options)`. The network is a parameter
`fetchO`: the outcome of `fetch` for given arguments at a given attempt
index. Returns the result (parsed payload or `null`, or a thrown error)
and the updated ambient state. -/
def request (fetchO : FetchArgs → Nat → FetchOutcome) (apiUrl path : String)
    (opts : RequestOptions) (st : ClientState) :
    Except JsError (Option String) × ClientState :=
  match getTelegramId st with
  | (tg, st') =>
    (fetchWithRetry (fun n => fetchO ⟨buildUrl apiUrl path tg, buildHeaders opts tg, opts⟩ n),
      st')

/-! ## Helper lemmas -/

/-- Unfolding of `buildCalendarGrid` once the month selector parses. -/
theorem buildCalendarGrid_eq (monthStr : String) (data : CalendarResult) (y m : Nat)
    (hp : parseMonth monthStr = some (y, m)) :
    buildCalendarGrid monthStr (some data) =
      List.replicate ((dayOfWeek (jsYearAdjust y) m 1 + 6) % 7) Cell.empty ++
        (List.range (daysInMonth (jsYearAdjust y) m)).map (fun i =>
          Cell.day (i + 1) (cellStatus (data.marked.getD []) (data.skipped.getD [])
            (dayStr monthStr (i + 1)))) := by
  simp [buildCalendarGrid, hp]

/-- Unfolding of `buildMiniBars` once the month selector parses. -/
theorem buildMiniBars_eq (monthStr : String) (data : CalendarResult) (y m : Nat)
    (hp : parseMonth monthStr = some (y, m)) :
    buildMiniBars monthStr (some data) =
      miniBarsFrom monthStr (daysInMonth (jsYearAdjust y) m)
        (data.marked.getD []) (data.skipped.getD []) := by
  simp [buildMiniBars, hp]

/-- Every month length is between 28 and 31. -/
theorem daysInMonth_bounds (y m : Nat) : 28 ≤ daysInMonth y m ∧ daysInMonth y m ≤ 31 := by
  unfold daysInMonth
  split_ifs <;> omega

/-- Years with at least three digits are unchanged by the `Date` year quirk. -/
theorem jsYearAdjust_of_gt (y : Nat) (hy : 99 < y) : jsYearAdjust y = y := by
  unfold jsYearAdjust
  rw [if_neg (by omega)]

/-! ## Claims -/

/-- C1: for every month string parsing as `(y, m)` (a `YYYY-MM` selector:
four-digit year, month 1..12) and every non-null `CalendarResult`, the
grid starts with exactly `(first_weekday + 6) % 7` empty cells (Monday
first; Sunday ↦ 6), followed by one day cell per day `1..daysInMonth`,
so the length is `leading_blanks + days_in_month`; with both sets empty
every day cell has status `"none"`. -/
theorem grid_shape_c1 (y m : Nat) (monthStr : String) (data : CalendarResult)
    (hp : parseMonth monthStr = some (y, m)) (hy : 99 < y)
    (hm1 : 1 ≤ m) (hm2 : m ≤ 12) :
    (buildCalendarGrid monthStr (some data)).length =
      (dayOfWeek y m 1 + 6) % 7 + daysInMonth y m ∧
    (buildCalendarGrid monthStr (some data)).take ((dayOfWeek y m 1 + 6) % 7) =
      List.replicate ((dayOfWeek y m 1 + 6) % 7) Cell.empty ∧
    (buildCalendarGrid monthStr (some data)).drop ((dayOfWeek y m 1 + 6) % 7) =
      (List.range (daysInMonth y m)).map (fun i =>
        Cell.day (i + 1) (cellStatus (data.marked.getD []) (data.skipped.getD [])
          (dayStr monthStr (i + 1)))) ∧
    (data.marked.getD [] = [] → data.skipped.getD [] = [] →
      ∀ c ∈ (buildCalendarGrid monthStr (some data)).drop ((dayOfWeek y m 1 + 6) % 7),
        ∃ d, c = Cell.day d "none") := by
  have hg := buildCalendarGrid_eq monthStr data y m hp
  rw [jsYearAdjust_of_gt y hy] at hg
  have hdrop : (buildCalendarGrid monthStr (some data)).drop ((dayOfWeek y m 1 + 6) % 7) =
      (List.range (daysInMonth y m)).map (fun i =>
        Cell.day (i + 1) (cellStatus (data.marked.getD []) (data.skipped.getD [])
          (dayStr monthStr (i + 1)))) := by
    rw [hg]; exact List.drop_left' (by simp)
  refine ⟨?_, ?_, hdrop, ?_⟩
  · rw [hg]; simp
  · rw [hg]; exact List.take_left' (by simp)
  · intro hmk hsk c hc
    rw [hdrop] at hc
    obtain ⟨i, _, rfl⟩ := List.mem_map.mp hc
    exact ⟨i + 1, by simp [cellStatus, hmk, hsk]⟩

/-- Witness for C1 at `month = "2024-03"` with empty mark/skip sets. -/
theorem grid_shape_c1_witness :
    parseMonth "2024-03" = some (2024, 3) ∧ 99 < 2024 ∧ 1 ≤ 3 ∧ 3 ≤ 12 ∧
    (buildCalendarGrid "2024-03"
        (some { marked := some [], skipped := some [] })).length =
      (dayOfWeek 2024 3 1 + 6) % 7 + daysInMonth 2024 3 :=
  ⟨by decide, by decide, by decide, by decide,
    (grid_shape_c1 2024 3 "2024-03" { marked := some [], skipped := some [] }
      (by decide) (by decide) (by decide) (by decide)).1⟩

/-- C7: for `"2024-02"` (leap year, Feb 1 a Thursday) the grid has 3
leading blank cells and 32 cells in total; for `"2023-02"` (Feb 1 a
Wednesday) it has 2 leading blanks and 30 cells — for any non-null
`CalendarResult`. -/
theorem grid_feb_examples_c7 (data : CalendarResult) :
    ((buildCalendarGrid "2024-02" (some data)).length = 32 ∧
     (buildCalendarGrid "2024-02" (some data)).take 3 = List.replicate 3 Cell.empty ∧
     ∀ c ∈ (buildCalendarGrid "2024-02" (some data)).drop 3, ∃ d s, c = Cell.day d s) ∧
    ((buildCalendarGrid "2023-02" (some data)).length = 30 ∧
     (buildCalendarGrid "2023-02" (some data)).take 2 = List.replicate 2 Cell.empty ∧
     ∀ c ∈ (buildCalendarGrid "2023-02" (some data)).drop 2, ∃ d s, c = Cell.day d s) := by
  have hg24 := buildCalendarGrid_eq "2024-02" data 2024 2 (by decide)
  have hg23 := buildCalendarGrid_eq "2023-02" data 2023 2 (by decide)
  have e24 : (dayOfWeek (jsYearAdjust 2024) 2 1 + 6) % 7 = 3 := by decide
  have d24 : daysInMonth (jsYearAdjust 2024) 2 = 29 := by decide
  have e23 : (dayOfWeek (jsYearAdjust 2023) 2 1 + 6) % 7 = 2 := by decide
  have d23 : daysInMonth (jsYearAdjust 2023) 2 = 28 := by decide
  rw [e24, d24] at hg24
  rw [e23, d23] at hg23
  refine ⟨⟨?_, ?_, ?_⟩, ?_, ?_, ?_⟩
  · rw [hg24]; simp
  · rw [hg24]; exact List.take_left' (by simp)
  · intro c hc
    rw [hg24, List.drop_left' (by simp)] at hc
    obtain ⟨i, _, rfl⟩ := List.mem_map.mp hc
    exact ⟨i + 1, _, rfl⟩
  · rw [hg23]; simp
  · rw [hg23]; exact List.take_left' (by simp)
  · intro c hc
    rw [hg23, List.drop_left' (by simp)] at hc
    obtain ⟨i, _, rfl⟩ := List.mem_map.mp hc
    exact ⟨i + 1, _, rfl⟩

/-- C9: with a null calendar argument both builders return the empty
sequence, so the `leading_blanks + days_in_month` length guarantee
fails at the null input (for `"2024-02"` it would require 3 + 29). -/
theorem null_input_c9 :
    (∀ monthStr, buildCalendarGrid monthStr none = [] ∧
      buildMiniBars monthStr none = []) ∧
    (buildCalendarGrid "2024-02" none).length ≠ 3 + 29 :=
  ⟨fun _ => ⟨rfl, rfl⟩, by decide⟩

/-- A day cell of the grid carries the status computed by `cellStatus` on
its own date string. -/
theorem status_of_mem_grid (monthStr : String) (data : CalendarResult) (d : Nat)
    (st : String) (h : Cell.day d st ∈ buildCalendarGrid monthStr (some data)) :
    st = cellStatus (data.marked.getD []) (data.skipped.getD []) (dayStr monthStr d) := by
  unfold buildCalendarGrid at h
  cases hp : parseMonth monthStr with
  | none => rw [hp] at h; simp at h
  | some ym =>
    obtain ⟨y, m⟩ := ym
    rw [hp] at h
    simp only [List.mem_append] at h
    rcases h with h | h
    · exact absurd (List.eq_of_mem_replicate h) (by simp)
    · obtain ⟨i, _, he⟩ := List.mem_map.mp h
      obtain ⟨hd, hst⟩ := Cell.day.inj he
      rw [← hst, hd]

/-- A bar of the mini strip carries the status computed by `cellStatus` on
its own date string. -/
theorem status_of_mem_bars (monthStr : String) (data : CalendarResult) (d : Nat)
    (st : String) (h : Bar.mk d st ∈ buildMiniBars monthStr (some data)) :
    st = cellStatus (data.marked.getD []) (data.skipped.getD []) (dayStr monthStr d) := by
  unfold buildMiniBars at h
  cases hp : parseMonth monthStr with
  | none => rw [hp] at h; simp at h
  | some ym =>
    obtain ⟨y, m⟩ := ym
    rw [hp] at h
    unfold miniBarsFrom at h
    obtain ⟨d', _, he⟩ := List.mem_map.mp h
    have hd : d' = d := congrArg Bar.day he
    have hst : cellStatus (data.marked.getD []) (data.skipped.getD [])
        (dayStr monthStr d') = st := congrArg Bar.status he
    rw [← hst, hd]

/-- C2: for every day cell of `buildCalendarGrid` and every entry of
`buildMiniBars`: in `marked` only ⇒ status `"done"`; in `skipped`
(whether or not also in `marked`) ⇒ `"skip"`, so skip takes precedence
on dual membership; in neither ⇒ `"none"`. -/
theorem status_cases_c2 (monthStr : String) (data : CalendarResult) (d : Nat)
    (st : String)
    (hmem : Cell.day d st ∈ buildCalendarGrid monthStr (some data) ∨
      Bar.mk d st ∈ buildMiniBars monthStr (some data)) :
    ((data.marked.getD []).contains (dayStr monthStr d) = true →
      (data.skipped.getD []).contains (dayStr monthStr d) = false → st = "done") ∧
    ((data.skipped.getD []).contains (dayStr monthStr d) = true → st = "skip") ∧
    ((data.marked.getD []).contains (dayStr monthStr d) = false →
      (data.skipped.getD []).contains (dayStr monthStr d) = false → st = "none") := by
  have hst : st = cellStatus (data.marked.getD []) (data.skipped.getD [])
      (dayStr monthStr d) := by
    rcases hmem with h | h
    · exact status_of_mem_grid monthStr data d st h
    · exact status_of_mem_bars monthStr data d st h
  subst hst
  unfold cellStatus
  cases hm : (data.marked.getD []).contains (dayStr monthStr d) <;>
    cases hs : (data.skipped.getD []).contains (dayStr monthStr d) <;>
      simp [hm, hs]

/-- Witness for C2: in February 2024, day 5 is marked only, day 6 is in
both sets and gets status `"skip"`. -/
theorem status_cases_c2_witness :
    (Cell.day 6 "skip" ∈ buildCalendarGrid "2024-02"
        (some { marked := some ["2024-02-05", "2024-02-06"],
                skipped := some ["2024-02-06"] }) ∨
      Bar.mk 6 "skip" ∈ buildMiniBars "2024-02"
        (some { marked := some ["2024-02-05", "2024-02-06"],
                skipped := some ["2024-02-06"] })) ∧
    ((some ["2024-02-06"] : Option (List String)).getD []).contains
      (dayStr "2024-02" 6) = true ∧
    "skip" = "skip" :=
  ⟨Or.inl (by decide), by decide,
    (status_cases_c2 "2024-02"
      { marked := some ["2024-02-05", "2024-02-06"], skipped := some ["2024-02-06"] }
      6 "skip" (Or.inl (by decide))).2.1 (by decide)⟩

/-- C5: for every `YYYY-MM` month selector and non-null data,
`buildMiniBars` lists the days `max(days_in_month − 13, 1)` through
`days_in_month` in increasing order, its length is
`min 14 days_in_month`, the start day is at least 1; and the same day
loop run over a hypothetical 5-day month yields exactly days 1..5. -/
theorem minibars_window_c5 (y m : Nat) (monthStr : String) (data : CalendarResult)
    (hp : parseMonth monthStr = some (y, m)) (hy : 99 < y)
    (hm1 : 1 ≤ m) (hm2 : m ≤ 12) :
    ((buildMiniBars monthStr (some data)).length = min 14 (daysInMonth y m) ∧
     (buildMiniBars monthStr (some data)).map Bar.day =
       List.range' (max (daysInMonth y m - 13) 1)
         (daysInMonth y m + 1 - max (daysInMonth y m - 13) 1) ∧
     1 ≤ max (daysInMonth y m - 13) 1) ∧
    (∀ mk sk, (miniBarsFrom monthStr 5 mk sk).map Bar.day = [1, 2, 3, 4, 5]) := by
  have hg := buildMiniBars_eq monthStr data y m hp
  rw [jsYearAdjust_of_gt y hy] at hg
  have hb := daysInMonth_bounds y m
  refine ⟨⟨?_, ?_, le_max_right _ 1⟩, fun mk sk => ?_⟩
  · rw [hg]
    unfold miniBarsFrom
    simp only [List.length_map, List.length_range']
    omega
  · rw [hg]
    unfold miniBarsFrom
    have hcomp : (Bar.day ∘ fun d =>
        (⟨d, cellStatus (data.marked.getD []) (data.skipped.getD [])
          (dayStr monthStr d)⟩ : Bar)) = id := rfl
    rw [List.map_map, hcomp, List.map_id]
  · unfold miniBarsFrom
    have hcomp : (Bar.day ∘ fun d =>
        (⟨d, cellStatus mk sk (dayStr monthStr d)⟩ : Bar)) = id := rfl
    rw [List.map_map, hcomp, List.map_id]
    decide

/-- Witness for C5 at `month = "2024-04"` (30 days). -/
theorem minibars_window_c5_witness :
    parseMonth "2024-04" = some (2024, 4) ∧ 99 < 2024 ∧ 1 ≤ 4 ∧ 4 ≤ 12 ∧
    (buildMiniBars "2024-04"
        (some { marked := none, skipped := none })).length =
      min 14 (daysInMonth 2024 4) :=
  ⟨by decide, by decide, by decide, by decide,
    (minibars_window_c5 2024 4 "2024-04" { marked := none, skipped := none }
      (by decide) (by decide) (by decide) (by decide)).1.1⟩

/-- C10: the builders' outputs depend on the marked/skipped inputs only
through membership of the zero-padded date strings of the target
month's own days: two inputs agreeing on those membership tests yield
identical grids and identical mini bars. -/
theorem membership_extensional_c10 (monthStr : String) (y m : Nat)
    (d₁ d₂ : CalendarResult)
    (hp : parseMonth monthStr = some (y, m))
    (hmk : ∀ d, d ≤ daysInMonth (jsYearAdjust y) m → 1 ≤ d →
      (d₁.marked.getD []).contains (dayStr monthStr d) =
        (d₂.marked.getD []).contains (dayStr monthStr d))
    (hsk : ∀ d, d ≤ daysInMonth (jsYearAdjust y) m → 1 ≤ d →
      (d₁.skipped.getD []).contains (dayStr monthStr d) =
        (d₂.skipped.getD []).contains (dayStr monthStr d)) :
    buildCalendarGrid monthStr (some d₁) = buildCalendarGrid monthStr (some d₂) ∧
    buildMiniBars monthStr (some d₁) = buildMiniBars monthStr (some d₂) := by
  have hb := daysInMonth_bounds (jsYearAdjust y) m
  constructor
  · rw [buildCalendarGrid_eq monthStr d₁ y m hp, buildCalendarGrid_eq monthStr d₂ y m hp]
    congr 1
    refine List.map_congr_left fun i hi => ?_
    rw [List.mem_range] at hi
    unfold cellStatus
    rw [hmk (i + 1) (by omega) (by omega), hsk (i + 1) (by omega) (by omega)]
  · rw [buildMiniBars_eq monthStr d₁ y m hp, buildMiniBars_eq monthStr d₂ y m hp]
    unfold miniBarsFrom
    refine List.map_congr_left fun d hd => ?_
    rw [List.mem_range'_1] at hd
    unfold cellStatus
    rw [hmk d (by omega) (by omega), hsk d (by omega) (by omega)]

/-- Witness for C10: an out-of-month entry and an unpadded entry in the
first input do not change February 2024's grid or bars. -/
theorem membership_extensional_c10_witness :
    parseMonth "2024-02" = some (2024, 2) ∧
    (∀ d, d ≤ daysInMonth (jsYearAdjust 2024) 2 → 1 ≤ d →
      ((some ["2024-02-03", "2024-03-01", "2024-2-4"] : Option (List String)).getD
          []).contains (dayStr "2024-02" d) =
        ((some ["2024-02-03"] : Option (List String)).getD []).contains
          (dayStr "2024-02" d)) ∧
    buildCalendarGrid "2024-02"
        (some { marked := some ["2024-02-03", "2024-03-01", "2024-2-4"],
                skipped := none }) =
      buildCalendarGrid "2024-02"
        (some { marked := some ["2024-02-03"], skipped := some [] }) :=
  ⟨by decide, by decide,
    (membership_extensional_c10 "2024-02" 2024 2
      { marked := some ["2024-02-03", "2024-03-01", "2024-2-4"], skipped := none }
      { marked := some ["2024-02-03"], skipped := some [] }
      (by decide) (by decide) (by decide)).1⟩

/-- When the first attempt yields a response, the wrapper processes it. -/
theorem fetchWithRetry_first_response (doFetch : Nat → FetchOutcome) (r : Response)
    (h0 : doFetch 0 = .response r) : fetchWithRetry doFetch = processResponse r := by
  unfold fetchWithRetry
  rw [h0]

/-- C3: an `AbortError` (timeout) on the first attempt triggers exactly
one retry: a successful retry's response is the one processed (and when
it is 2xx the caller sees a non-error result); a second abort
propagates as the error; a non-abort failure on the first attempt
propagates immediately, the result being independent of any further
oracle behaviour; and within `request` both attempts pass the identical
argument tuple `requestArgs` to `fetch`, so the outcome depends on the
network only through those arguments. -/
theorem retry_on_timeout_c3 (doFetch : Nat → FetchOutcome) (r : Response)
    (msg : String) (fetchO fetchO' : FetchArgs → Nat → FetchOutcome)
    (apiUrl path : String) (opts : RequestOptions) (st : ClientState) :
    (doFetch 0 = .abortError → doFetch 1 = .response r →
      fetchWithRetry doFetch = processResponse r ∧
        (r.okB = true → ∃ v, fetchWithRetry doFetch = .ok v)) ∧
    (doFetch 0 = .abortError → doFetch 1 = .abortError →
      fetchWithRetry doFetch = .error .abortError) ∧
    (doFetch 0 = .failure msg →
      fetchWithRetry doFetch = .error (.failure msg)) ∧
    ((∀ n, fetchO (requestArgs apiUrl path opts st) n =
        fetchO' (requestArgs apiUrl path opts st) n) →
      request fetchO apiUrl path opts st = request fetchO' apiUrl path opts st) := by
  refine ⟨fun h0 h1 => ⟨?_, ?_⟩, fun h0 h1 => ?_, fun h0 => ?_, fun heq => ?_⟩
  · unfold fetchWithRetry
    rw [h0, h1]
  · intro hok
    have hfr : fetchWithRetry doFetch = processResponse r := by
      unfold fetchWithRetry
      rw [h0, h1]
    rw [hfr]
    unfold processResponse
    rw [hok]
    simp only [Bool.not_true, Bool.false_eq_true, if_false]
    by_cases h204 : (r.status == 204) = true
    · exact ⟨none, by rw [if_pos h204]⟩
    · exact ⟨some r.jsonBody, by rw [if_neg h204]⟩
  · unfold fetchWithRetry
    rw [h0, h1]
  · unfold fetchWithRetry
    rw [h0]
  · unfold request
    cases hgt : getTelegramId st with
    | mk tg st' =>
      have hargs : requestArgs apiUrl path opts st =
          ⟨buildUrl apiUrl path tg, buildHeaders opts tg, opts⟩ := by
        unfold requestArgs
        rw [hgt]
      rw [hargs] at heq
      dsimp only
      have hfun : (fun n => fetchO
          (⟨buildUrl apiUrl path tg, buildHeaders opts tg, opts⟩ : FetchArgs) n) =
          fun n => fetchO' ⟨buildUrl apiUrl path tg, buildHeaders opts tg, opts⟩ n :=
        funext heq
      rw [hfun]

/-- Witness for C3: one timeout, then a 200 response with body text
`"payload"`; the retried response is the one returned, without error. -/
theorem retry_on_timeout_c3_witness :
    (fun n => if n = 0 then FetchOutcome.abortError
      else FetchOutcome.response ⟨200, "", "payload"⟩) 0 = FetchOutcome.abortError ∧
    (fun n => if n = 0 then FetchOutcome.abortError
      else FetchOutcome.response ⟨200, "", "payload"⟩) 1 =
        FetchOutcome.response ⟨200, "", "payload"⟩ ∧
    fetchWithRetry (fun n => if n = 0 then FetchOutcome.abortError
      else FetchOutcome.response ⟨200, "", "payload"⟩) =
        processResponse ⟨200, "", "payload"⟩ :=
  ⟨rfl, rfl,
    ((retry_on_timeout_c3
      (fun n => if n = 0 then FetchOutcome.abortError
        else FetchOutcome.response ⟨200, "", "payload"⟩)
      ⟨200, "", "payload"⟩ "" (fun _ _ => FetchOutcome.abortError)
      (fun _ _ => FetchOutcome.abortError) "" "" {} ⟨none, none⟩).1 rfl rfl).1⟩

/-- C4: a response with status outside 200..299 makes the wrapper throw
an error whose message is exactly the body text, or `"Request failed"`
when the body is empty; in particular a 404 with body `"not found"`
throws the message `"not found"`. -/
theorem non2xx_error_c4 (doFetch : Nat → FetchOutcome) (r : Response)
    (h0 : doFetch 0 = .response r) (hok : ¬(200 ≤ r.status ∧ r.status ≤ 299)) :
    fetchWithRetry doFetch = .error (.requestError
      (if r.bodyText == "" then "Request failed" else r.bodyText)) ∧
    (r.status = 404 → r.bodyText = "not found" →
      fetchWithRetry doFetch = .error (.requestError "not found")) := by
  have hokb : r.okB = false := by
    unfold Response.okB
    simp only [Bool.and_eq_false_iff, decide_eq_false_iff_not]
    omega
  have hmain : fetchWithRetry doFetch = .error (.requestError
      (if r.bodyText == "" then "Request failed" else r.bodyText)) := by
    rw [fetchWithRetry_first_response doFetch r h0]
    unfold processResponse
    rw [hokb]
    simp
  refine ⟨hmain, fun _ hbody => ?_⟩
  rw [hmain, hbody]
  simp

/-- Witness for C4: a 404 response with body `"not found"`. -/
theorem non2xx_error_c4_witness :
    (fun _ => FetchOutcome.response ⟨404, "not found", ""⟩) 0 =
      FetchOutcome.response ⟨404, "not found", ""⟩ ∧
    ¬(200 ≤ 404 ∧ 404 ≤ 299) ∧
    fetchWithRetry (fun _ => FetchOutcome.response ⟨404, "not found", ""⟩) =
      .error (.requestError "not found") :=
  ⟨rfl, by decide,
    (non2xx_error_c4 (fun _ => FetchOutcome.response ⟨404, "not found", ""⟩)
      ⟨404, "not found", ""⟩ rfl (by decide)).2 rfl rfl⟩

/-- C6: a 204 response resolves to the null result, independently of the
response's parseable body (`jsonBody` is arbitrary and unused); every
other 2xx response resolves to its parsed JSON payload. -/
theorem success_payload_c6 (doFetch : Nat → FetchOutcome) (r : Response)
    (h0 : doFetch 0 = .response r) :
    (r.status = 204 → fetchWithRetry doFetch = .ok none) ∧
    (200 ≤ r.status → r.status ≤ 299 → r.status ≠ 204 →
      fetchWithRetry doFetch = .ok (some r.jsonBody)) := by
  constructor
  · intro h204
    rw [fetchWithRetry_first_response doFetch r h0]
    unfold processResponse
    have hokb : r.okB = true := by
      unfold Response.okB
      rw [h204]
      decide
    rw [hokb, h204]
    simp
  · intro hlo hhi hne
    rw [fetchWithRetry_first_response doFetch r h0]
    unfold processResponse
    have hokb : r.okB = true := by
      unfold Response.okB
      simp only [Bool.and_eq_true, decide_eq_true_eq]
      omega
    have h204 : (r.status == 204) = false := by
      simp only [beq_eq_false_iff_ne, ne_eq]
      exact hne
    rw [hokb, h204]
    simp

/-- Witness for C6: a 204 response with a nonempty would-be body parses
to the null result. -/
theorem success_payload_c6_witness :
    (fun _ => FetchOutcome.response ⟨204, "", "ignored"⟩) 0 =
      FetchOutcome.response ⟨204, "", "ignored"⟩ ∧
    (204 : Nat) = 204 ∧
    fetchWithRetry (fun _ => FetchOutcome.response ⟨204, "", "ignored"⟩) = .ok none :=
  ⟨rfl, rfl,
    (success_payload_c6 (fun _ => FetchOutcome.response ⟨204, "", "ignored"⟩)
      ⟨204, "", "ignored"⟩ rfl).1 rfl⟩

/-- C8: under the options every wrapper operation uses (no caller-supplied
headers), a known truthy identifying token is attached to the issued
fetch both as the `X-Telegram-Id` header and as a `telegram_user_id`
query parameter appended to the URL; with no token known, the headers
hold no `X-Telegram-Id` entry and the URL is exactly base ++ path. Both
attempts of `request` pass exactly `requestArgs` to `fetch`. -/
theorem token_attachment_c8 (fetchO : FetchArgs → Nat → FetchOutcome)
    (apiUrl path : String) (opts : RequestOptions) (st : ClientState)
    (hho : opts.headers = none) :
    (truthyStr (getTelegramId st).1 = true →
      hdrLookup (requestArgs apiUrl path opts st).headers "X-Telegram-Id" =
        some ((getTelegramId st).1.getD "") ∧
      (requestArgs apiUrl path opts st).url =
        (apiUrl ++ path) ++ (if (apiUrl ++ path).contains '?' then "&" else "?") ++
          "telegram_user_id=" ++ encodeURIComponent ((getTelegramId st).1.getD "")) ∧
    (truthyStr (getTelegramId st).1 = false →
      hdrLookup (requestArgs apiUrl path opts st).headers "X-Telegram-Id" = none ∧
      (requestArgs apiUrl path opts st).url = apiUrl ++ path) ∧
    request fetchO apiUrl path opts st =
      (fetchWithRetry (fun n => fetchO (requestArgs apiUrl path opts st) n),
        (getTelegramId st).2) := by
  have hct : (("Content-Type" : String) == "X-Telegram-Id") = false := by decide
  have hxt : (("X-Telegram-Id" : String) == "X-Telegram-Id") = true := by decide
  have hbase : hdrLookup ([("Content-Type", "application/json")] ++
      (opts.headers.getD [])) "X-Telegram-Id" = none := by
    rw [hho]
    simp [hdrLookup, hct]
  refine ⟨fun htg => ⟨?_, ?_⟩, fun htg => ⟨?_, ?_⟩, ?_⟩
  · unfold requestArgs buildHeaders
    dsimp only
    rw [hbase, htg]
    simp [truthyStr, hdrLookup, hxt, hct]
  · unfold requestArgs buildUrl
    dsimp only
    rw [htg]
    simp
  · unfold requestArgs buildHeaders
    dsimp only
    rw [hbase, htg]
    simp only [Bool.false_and, Bool.false_eq_true, if_false]
    exact hbase
  · unfold requestArgs buildUrl
    dsimp only
    rw [htg]
    simp
  · unfold request
    cases hgt : getTelegramId st with
    | mk tg st' =>
      have hargs : requestArgs apiUrl path opts st =
          ⟨buildUrl apiUrl path tg, buildHeaders opts tg, opts⟩ := by
        unfold requestArgs
        rw [hgt]
      rw [hargs]

/-- Witness for C8: a host-provided user id 42 with empty options. -/
theorem token_attachment_c8_witness :
    (({} : RequestOptions).headers = none) ∧
    truthyStr (getTelegramId ⟨some 42, none⟩).1 = true ∧
    hdrLookup (requestArgs "http://a" "/habits" {} ⟨some 42, none⟩).headers
        "X-Telegram-Id" = some ((getTelegramId ⟨some 42, none⟩).1.getD "") :=
  ⟨rfl, by decide,
    ((token_attachment_c8 (fun _ _ => FetchOutcome.abortError) "http://a" "/habits"
      {} ⟨some 42, none⟩ rfl).1 (by decide)).1⟩

end HabitBot
